import Mathlib

/-!
Shallow embedding of `azure/http/httpclient.py` (`_HTTPClient`), the request
dispatcher of this repository.  Pure data is translated to Lean structures,
the stateful methods become functions that thread the client state and the
connection's buffered/emitted data explicitly, and the interactions with the
platform connection primitive are recorded as an explicit event trace.
-/

/-- Raw bytes, as carried by a request or response body (Python `bytes`). -/
abbrev Bytes := List Nat

/-- Models Python `str.lower()` on a single character.  Header names are
ASCII, so only the basic-latin range matters: code points 65..90 are shifted
by 32, everything else is untouched. -/
def pyLowerChar (c : Char) : Char :=
  if h : 65 ≤ c.toNat ∧ c.toNat ≤ 90 then
    Char.ofNatAux (c.toNat + 32) (Or.inl (by omega))
  else c

/-- Models Python `str.lower()` on a string: characterwise lowering. -/
def pyLower (s : String) : String :=
  String.mk (s.data.map pyLowerChar)

/-- A string is lowercase when it contains no uppercase basic-latin letter. -/
def lowercaseStr (s : String) : Bool :=
  s.data.all (fun c => decide (c.toNat < 65) || decide (90 < c.toNat))

/-- Models Python `s.startswith(pre)`. -/
def pyStartsWith (s pre : String) : Bool :=
  pre.data.isPrefixOf s.data

/-- Python truthiness of an optional string: `None` and `""` are falsy. -/
def truthyStr : Option String → Bool
  | none => false
  | some s => s ≠ ""

/-- Python truthiness of an optional byte string: `None` and `b""` are falsy. -/
def truthyBytes : Option Bytes → Bool
  | none => false
  | some b => !b.isEmpty

/-- The line `putheader(name, value)` appends to the connection's buffer. -/
def putheaderLine (name value : String) : String :=
  name ++ ": " ++ value

/-- The base64 alphabet used by `base64.encodestring`. -/
def b64Alphabet : String :=
  "ABCDEFGHIJKLMNOPQRSTUVWXYZabcdefghijklmnopqrstuvwxyz0123456789+/"

/-- The base64 digit for a 6-bit value. -/
def b64Char (n : Nat) : Char := b64Alphabet.data.getD n '='

/-- Base64-encode a byte list, three bytes to four digits, `=`-padded. -/
def b64EncodeGroups : List Nat → List Char
  | b1 :: b2 :: b3 :: rest =>
    let n := b1 * 65536 + b2 * 256 + b3
    b64Char (n / 262144 % 64) :: b64Char (n / 4096 % 64) ::
      b64Char (n / 64 % 64) :: b64Char (n % 64) :: b64EncodeGroups rest
  | [b1, b2] =>
    let n := b1 * 65536 + b2 * 256
    [b64Char (n / 262144 % 64), b64Char (n / 4096 % 64), b64Char (n / 64 % 64), '=']
  | [b1] =>
    let n := b1 * 65536
    [b64Char (n / 262144 % 64), b64Char (n / 4096 % 64), '=', '=']
  | [] => []

/-- Split a byte list into chunks of 57 bytes (`base64.MAXBINSIZE`). -/
def chunksOf57 : List Nat → List (List Nat)
  | [] => []
  | a :: rest => ((a :: rest).take 57) :: chunksOf57 ((a :: rest).drop 57)
termination_by l => l.length
decreasing_by simp [List.length_drop]; omega

/-- Models Python 2 `base64.encodestring`: each 57-byte chunk is encoded and
followed by a newline. -/
def base64_encodestring (bs : List Nat) : String :=
  String.mk ((chunksOf57 bs).foldr (fun c acc => b64EncodeGroups c ++ '\n' :: acc) [])

/-- Bytes of a Python 2 `str` (one byte per character, sufficient for the
ASCII credentials this module encodes). -/
def strBytes (s : String) : List Nat := s.data.map Char.toNat

/-- Models the fixed product string `azure._USER_AGENT_STRING` that the
client always appends as `User-Agent` (its value lives outside this module). -/
def USER_AGENT_STRING : String := "pyazure"

/-- Default HTTP port, `http.client.HTTP_PORT`. -/
def HTTP_PORT : Nat := 80

/-- Default HTTPS port, `http.client.HTTPS_PORT`. -/
def HTTPS_PORT : Nat := 443

/-- The request descriptor consumed by `_HTTPClient`: method, path, optional
protocol override, target host, header name/value pairs and optional body. -/
structure Request where
  method : String
  path : String
  protocol_override : Option String
  host : String
  headers : List (String × String)
  body : Option Bytes
deriving DecidableEq, Repr

/-- The `_HTTPClient` instance state: the fields assigned in `__init__`.
`service_instance` is an opaque reference, modelled as a token. -/
structure ClientState where
  service_instance : Nat
  status : Option Nat
  respheader : Option (List (String × String))
  message : Option String
  cert_file : Option String
  account_name : Option String
  account_key : Option String
  service_namespace : Option String
  issuer : Option String
  protocol : String
  proxy_host : Option String
  proxy_port : Option Nat
  proxy_user : Option String
  proxy_password : Option String
  use_httplib : Bool
deriving DecidableEq, Repr

/-- `_HTTPClient.__init__`: records the constructor arguments, initialises
the last-response fields and proxy fields to `None`, and selects the
alternate (winhttp) connection implementation exactly on Windows. -/
def initClient (service_instance : Nat) (cert_file account_name account_key
    service_namespace issuer : Option String) (protocol : String)
    (sys_platform : String) : ClientState :=
  { service_instance := service_instance
    status := none
    respheader := none
    message := none
    cert_file := cert_file
    account_name := account_name
    account_key := account_key
    service_namespace := service_namespace
    issuer := issuer
    protocol := protocol
    proxy_host := none
    proxy_port := none
    proxy_user := none
    proxy_password := none
    use_httplib := !(pyStartsWith (pyLower sys_platform) "win") }

/-- `_HTTPClient.set_proxy`: four plain field assignments, in source order. -/
def set_proxy (st : ClientState) (host : Option String) (port : Option Nat)
    (user password : Option String) : ClientState :=
  let st := { st with proxy_host := host }
  let st := { st with proxy_port := port }
  let st := { st with proxy_user := user }
  { st with proxy_password := password }

/-- Which connection implementation a connection object belongs to:
`http.client.HTTPConnection`, `http.client.HTTPSConnection`, or the
alternate `azure.http.winhttp._HTTPConnection`. -/
inductive ConnKind where
  | httpConn
  | httpsConn
  | winhttp
deriving DecidableEq, Repr

/-- The tunnel data recorded by `connection.set_tunnel(host, port, headers)`. -/
structure Tunnel where
  host : String
  port : Nat
  headers : Option (List (String × String))
deriving DecidableEq, Repr

/-- A constructed connection object: implementation kind, connect address,
certificate file, protocol argument (winhttp only) and tunnel settings. -/
structure Connection where
  kind : ConnKind
  host : String
  port : Option Nat
  cert_file : Option String
  protocol : Option String
  tunnel : Option Tunnel
deriving DecidableEq, Repr

/-- The effective protocol of a request:
`request.protocol_override if request.protocol_override else self.protocol`. -/
def effectiveProtocol (st : ClientState) (req : Request) : String :=
  if truthyStr req.protocol_override then req.protocol_override.getD "" else st.protocol

/-- The optional CONNECT-tunnel header dictionary built in `get_connection`:
a `Proxy-Authorization` Basic header exactly when both `proxy_user` and
`proxy_password` are truthy. -/
def proxyAuthHeaders (st : ClientState) : Option (List (String × String)) :=
  if truthyStr st.proxy_user && truthyStr st.proxy_password then
    let auth := base64_encodestring
      (strBytes (st.proxy_user.getD "" ++ ":" ++ st.proxy_password.getD ""))
    some [("Proxy-Authorization", "Basic " ++ auth)]
  else none

/-- `_HTTPClient.get_connection`: resolves the effective protocol and target
host/port, builds the connection (winhttp on Windows, otherwise an
`HTTPConnection`/`HTTPSConnection` aimed at the proxy when one is
configured), and sets up the CONNECT tunnel when a proxy host is configured.
Returns `none` where the source would raise `TypeError` from `int(None)`
(proxy host configured but proxy port `None`). -/
def get_connection (st : ClientState) (req : Request) : Option Connection :=
  let protocol := effectiveProtocol st req
  let target_host := req.host
  let target_port := if protocol = "http" then HTTP_PORT else HTTPS_PORT
  let base : Option (Connection × String × Option Nat) :=
    if !st.use_httplib then
      some ({ kind := .winhttp, host := target_host, port := none,
              cert_file := st.cert_file, protocol := some protocol, tunnel := none },
            st.proxy_host.getD "", st.proxy_port)
    else
      if truthyStr st.proxy_host then
        match st.proxy_port with
        | none => none
        | some pport =>
          let host := st.proxy_host.getD ""
          let conn : Connection :=
            if protocol = "http" then
              { kind := .httpConn, host := host, port := some pport,
                cert_file := none, protocol := none, tunnel := none }
            else
              { kind := .httpsConn, host := host, port := some pport,
                cert_file := st.cert_file, protocol := none, tunnel := none }
          some (conn, target_host, some target_port)
      else
        let conn : Connection :=
          if protocol = "http" then
            { kind := .httpConn, host := target_host, port := some target_port,
              cert_file := none, protocol := none, tunnel := none }
          else
            { kind := .httpsConn, host := target_host, port := some target_port,
              cert_file := st.cert_file, protocol := none, tunnel := none }
        some (conn, target_host, some target_port)
  match base with
  | none => none
  | some (connection, proxy_host, proxy_port) =>
    if truthyStr st.proxy_host then
      match proxy_port with
      | none => none
      | some pp =>
        some { connection with
               tunnel := some { host := proxy_host, port := pp,
                                headers := proxyAuthHeaders st } }
    else some connection

/-- Models `lst.remove(x)` on a Python list: drop the first element equal to
`x`, keep the list unchanged when `x` does not occur. -/
def pyRemoveFirst (lst : List String) (x : String) : List String :=
  match lst with
  | [] => []
  | a :: rest => if a = x then rest else a :: pyRemoveFirst rest x

/-- Removing one occurrence never lengthens a list. -/
theorem pyRemoveFirst_length_le (lst : List String) (x : String) :
    (pyRemoveFirst lst x).length ≤ lst.length := by
  induction lst with
  | nil => simp [pyRemoveFirst]
  | cons a rest ih =>
    simp only [pyRemoveFirst]
    split
    · simp
    · simpa using Nat.succ_le_succ ih

/-- Models the Python loop `for i in lst: if p(i): lst.remove(i)` with
CPython's index-based iterator semantics: the cursor advances by one after
each step even when a removal shifted the remaining elements. -/
def pyRemoveLoop (p : String → Bool) (lst : List String) (idx : Nat) : List String :=
  if h : idx < lst.length then
    let i := lst.get ⟨idx, h⟩
    if p i then pyRemoveLoop p (pyRemoveFirst lst i) (idx + 1)
    else pyRemoveLoop p lst (idx + 1)
  else lst
termination_by lst.length - idx
decreasing_by
  · have hle := pyRemoveFirst_length_le lst (lst.get ⟨idx, h⟩)
    omega
  · omega

/-- Header lines appended by the loop over `request.headers` in
`send_request_headers`: one `putheader` line per pair with a truthy value. -/
def requestHeaderLines (request_headers : List (String × String)) : List String :=
  request_headers.filterMap
    (fun nv => if nv.2 ≠ "" then some (putheaderLine nv.1 nv.2) else none)

/-- The tunnelling fix-up at the top of `send_request_headers`: remove the
buffered `Host: ` lines with the remove-while-iterating loop, then re-add a
`Host` header naming the tunnel target (`None:None` when no tunnel was set,
as Python would format the unset `_tunnel_host`/`_tunnel_port`). -/
def host_header_fixup (connection : Connection) (buffer : List String) : List String :=
  let b := pyRemoveLoop (fun i => pyStartsWith i "Host: ") buffer 0
  match connection.tunnel with
  | some t => b ++ [putheaderLine "Host" (t.host ++ ":" ++ toString t.port)]
  | none => b ++ [putheaderLine "Host" "None:None"]

/-- `_HTTPClient.send_request_headers` as a function on the connection's
line buffer: the tunnelling Host fix-up (httplib with a proxy configured),
the request headers with truthy values, then the fixed `User-Agent` line. -/
def send_request_headers (st : ClientState) (connection : Connection)
    (buffer : List String) (request_headers : List (String × String)) : List String :=
  let buffer :=
    if st.use_httplib then
      if truthyStr st.proxy_host then host_header_fixup connection buffer else buffer
    else buffer
  (buffer ++ requestHeaderLines request_headers) ++ [putheaderLine "User-Agent" USER_AGENT_STRING]

/-- An observable interaction with the connection object during
`perform_request`. -/
inductive Event where
  | putrequest (method path : String)
  | setProxyCredentials (user : String) (password : Option String)
  | endheaders (buffer : List String)
  | send (data : Option Bytes)
  | getresponse
  | close
deriving DecidableEq, Repr

/-- `_HTTPClient.send_request_body`: send the body when it is truthy,
otherwise issue one explicit `send(None)` exactly when the connection is
neither an `HTTPSConnection` nor an `HTTPConnection`. -/
def send_request_body (connection : Connection) (request_body : Option Bytes) :
    List Event :=
  if truthyBytes request_body then
    [Event.send request_body]
  else if ¬(connection.kind = ConnKind.httpsConn) ∧ ¬(connection.kind = ConnKind.httpConn) then
    [Event.send none]
  else []

/-- The raw response handed back by `connection.getresponse()`: status,
reason, header pairs as received on the wire, the framing length
(`resp.length`, `None` when unknown) and the readable byte stream. -/
structure RawResponse where
  status : Nat
  reason : String
  headers : List (String × String)
  length : Option Nat
  stream : Bytes
deriving DecidableEq, Repr

/-- Modelled from the spec: the Response value `azure.http.HTTPResponse`, a
normalized tuple of status code, reason phrase, headers and optional body
(the class itself lives outside this module). -/
structure HTTPResponse where
  status : Nat
  message : String
  headers : List (String × String)
  body : Option Bytes
deriving DecidableEq, Repr

/-- Modelled from the spec: the Error value `azure.http.HTTPError`
(RequestFailed), carrying status code, reason phrase, headers and body
(the class itself lives outside this module). -/
structure HTTPError where
  status : Nat
  message : String
  respheader : List (String × String)
  respbody : Option Bytes
deriving DecidableEq, Repr

/-- What a dispatch produced: a returned Response, a raised `HTTPError`, a
propagated connection-level exception, or an exception raised inside
`get_connection` itself (before any connection object exists). -/
inductive Outcome where
  | success (response : HTTPResponse)
  | httpError (e : HTTPError)
  | connError
  | getConnError
deriving DecidableEq, Repr

/-- Behaviour of the network for one dispatch: either `getresponse` yields a
raw response, or the connection raises somewhere inside the `try` block. -/
inductive NetResult where
  | ok (resp : RawResponse)
  | err
deriving DecidableEq, Repr

/-- The in-place lowercasing loop of `perform_request`:
`headers[i] = (value[0].lower(), value[1])` for every position. -/
def lowerHeaders (headers : List (String × String)) : List (String × String) :=
  headers.map (fun value => (pyLower value.1, value.2))

/-- The body-reading policy of `perform_request`: read to exhaustion when the
length is unknown, read exactly `length` bytes when it is positive, and
leave the body `None` when the length is zero. -/
def readBody (length : Option Nat) (stream : Bytes) : Option Bytes :=
  match length with
  | none => some stream
  | some n => if 0 < n then some (stream.take n) else none

/-- The connection interactions `perform_request` performs inside its `try`
block before reading the response: request line, optional winhttp proxy
credentials, header flush, body send, response fetch. -/
def dispatchEvents (st : ClientState) (connection : Connection) (req : Request)
    (buffer : List String) : List Event :=
  [Event.putrequest req.method req.path]
  ++ (if !st.use_httplib && truthyStr st.proxy_host && truthyStr st.proxy_user then
        [Event.setProxyCredentials (st.proxy_user.getD "") st.proxy_password]
      else [])
  ++ [Event.endheaders buffer]
  ++ send_request_body connection req.body
  ++ [Event.getresponse]

/-- `_HTTPClient.perform_request`: acquire the connection, emit request
line, headers and body, read and normalize the response, raise `HTTPError`
for status ≥ 300, and close the connection in the `finally` block on every
path.  `initBuffer` is the line buffer the connection holds after
`putrequest` (built by the connection primitive, outside this module);
`net` injects the network's behaviour.  Note `self.respheader` aliases the
list mutated by the lowercasing loop, so state and error carry the
lowercased headers. -/
def perform_request (st : ClientState) (req : Request) (initBuffer : List String)
    (net : NetResult) : ClientState × Outcome × List Event :=
  match get_connection st req with
  | none => (st, .getConnError, [])
  | some connection =>
    let buffer := send_request_headers st connection initBuffer req.headers
    let events := dispatchEvents st connection req buffer
    match net with
    | .err => (st, .connError, events ++ [Event.close])
    | .ok resp =>
      let st := { st with status := some resp.status, message := some resp.reason }
      let headers := lowerHeaders resp.headers
      let st := { st with respheader := some headers }
      let respbody := readBody resp.length resp.stream
      let response : HTTPResponse :=
        { status := resp.status, message := resp.reason, headers := headers, body := respbody }
      if 300 ≤ resp.status then
        (st, .httpError { status := resp.status, message := resp.reason,
                          respheader := headers, respbody := respbody },
         events ++ [Event.close])
      else
        (st, .success response, events ++ [Event.close])

/-- Recognizes the `close` interaction in a trace. -/
def isClose : Event → Bool
  | .close => true
  | _ => false

/-- The effective address of the ultimate target in a constructed
connection: the tunnel's port when a CONNECT tunnel is configured,
otherwise the port the connection itself connects to. -/
def effectiveTargetPort (connection : Connection) : Nat :=
  match connection.tunnel with
  | some t => t.port
  | none => connection.port.getD 0

/-- A plain client on a non-Windows platform, default protocol, no proxy. -/
def sampleClient : ClientState :=
  initClient 0 none none none none none "https" "linux2"

/-- A sample request with one header and no body. -/
def sampleRequest : Request :=
  { method := "GET", path := "/blob", protocol_override := none,
    host := "example.com", headers := [("x-ms-version", "2021-08-06")], body := none }

/-- A raw 404 response whose header name is capitalized on the wire. -/
def sampleRaw404 : RawResponse :=
  { status := 404, reason := "Not Found", headers := [("X-Foo", "bar")],
    length := none, stream := [] }

/-- A raw 200 response with a capitalized header name and a known length. -/
def sampleRaw200 : RawResponse :=
  { status := 200, reason := "OK", headers := [("Content-Length", "2")],
    length := some 2, stream := [104, 105] }

/-- The connection `get_connection` builds for `sampleClient` and
`sampleRequest`: a direct HTTPS connection to the target at port 443. -/
def sampleConnection : Connection :=
  { kind := .httpsConn, host := "example.com", port := some 443,
    cert_file := none, protocol := none, tunnel := none }

/-- The sample client with a proxy plus credentials configured. -/
def proxyClient : ClientState :=
  set_proxy sampleClient (some "10.0.0.1") (some 8080) (some "u") (some "p")

/-- A proxied connection with a CONNECT tunnel towards the sample target. -/
def tunnelConnection : Connection :=
  { kind := .httpsConn, host := "10.0.0.1", port := some 8080,
    cert_file := none, protocol := none,
    tunnel := some { host := "example.com", port := 443, headers := none } }

/-- A connection of the alternate (winhttp) implementation. -/
def winhttpConnection : Connection :=
  { kind := .winhttp, host := "example.com", port := none,
    cert_file := none, protocol := some "https", tunnel := none }

/-- Evaluating `Char.ofNatAux` back to the code point it was built from. -/
theorem toNat_ofNatAux (n : Nat) (h : n.isValidChar) :
    (Char.ofNatAux n h).toNat = n := rfl

/-- One `str.lower()` step leaves no uppercase basic-latin letter behind. -/
theorem pyLowerChar_not_upper (c : Char) :
    (pyLowerChar c).toNat < 65 ∨ 90 < (pyLowerChar c).toNat := by
  unfold pyLowerChar
  split
  · next h =>
    rw [toNat_ofNatAux]
    omega
  · next h => omega

/-- Strings produced by `pyLower` satisfy the lowercase predicate. -/
theorem lowercaseStr_pyLower (s : String) : lowercaseStr (pyLower s) = true := by
  unfold lowercaseStr pyLower
  rw [List.all_eq_true]
  intro c hc
  rw [List.mem_map] at hc
  obtain ⟨c0, -, rfl⟩ := hc
  rcases pyLowerChar_not_upper c0 with h | h <;> simp [h]

/-- Every header name produced by the lowercasing loop is lowercase. -/
theorem lowerHeaders_lowercase (headers : List (String × String)) :
    ∀ nv ∈ lowerHeaders headers, lowercaseStr nv.1 = true := by
  intro nv hnv
  rw [lowerHeaders, List.mem_map] at hnv
  obtain ⟨v, -, rfl⟩ := hnv
  exact lowercaseStr_pyLower v.1

/-- C2: for every dispatch that returns successfully, every header name in
the returned `Response` value is lowercase, regardless of the casing
received on the wire. -/
theorem C2_success_headers_lowercase (st : ClientState) (req : Request)
    (buf : List String) (net : NetResult) (st' : ClientState)
    (r : HTTPResponse) (tr : List Event)
    (h : perform_request st req buf net = (st', Outcome.success r, tr)) :
    ∀ nv ∈ r.headers, lowercaseStr nv.1 = true := by
  unfold perform_request at h
  cases hg : get_connection st req <;> rw [hg] at h
  · simp at h
  case some connection =>
    cases net with
    | err => simp at h
    | ok resp =>
      simp only [] at h
      split at h
      · simp at h
      · rw [Prod.mk.injEq, Prod.mk.injEq] at h
        obtain ⟨-, h2, -⟩ := h
        injection h2 with h3
        subst h3
        exact lowerHeaders_lowercase resp.headers

/-- C2 witness: the sample 200 dispatch turns the wire header name
`Content-Length` into `content-length`, which is lowercase. -/
theorem C2_success_headers_lowercase_witness :
    lowercaseStr ("content-length" : String) = true :=
  C2_success_headers_lowercase sampleClient sampleRequest [] (.ok sampleRaw200)
    { sampleClient with
        status := some 200
        message := some "OK"
        respheader := some [("content-length", "2")] }
    { status := 200, message := "OK", headers := [("content-length", "2")],
      body := some [104, 105] }
    [Event.putrequest "GET" "/blob",
     Event.endheaders ["x-ms-version: 2021-08-06", "User-Agent: pyazure"],
     Event.getresponse, Event.close]
    rfl ("content-length", "2") (by simp)

/-- C9: for every dispatch whose response has status ≥ 300, the raised
`HTTPError` carries the same lowercased header list as the `Response` value
(the in-place normalization aliases `self.respheader`), so every header
name in the error is lowercase. -/
theorem C9_error_headers_lowercase (st : ClientState) (req : Request)
    (buf : List String) (resp : RawResponse) (st' : ClientState)
    (e : HTTPError) (tr : List Event)
    (h : perform_request st req buf (.ok resp) = (st', Outcome.httpError e, tr)) :
    e.respheader = lowerHeaders resp.headers ∧
    ∀ nv ∈ e.respheader, lowercaseStr nv.1 = true := by
  unfold perform_request at h
  cases hg : get_connection st req <;> rw [hg] at h
  · simp at h
  case some connection =>
    simp only [] at h
    split at h
    · rw [Prod.mk.injEq, Prod.mk.injEq] at h
      obtain ⟨-, h2, -⟩ := h
      injection h2 with h3
      subst h3
      exact ⟨rfl, lowerHeaders_lowercase resp.headers⟩
    · simp at h

/-- C9 witness: the sample 404 dispatch raises this `HTTPError`, whose
headers are the lowered raw headers, all names lowercase. -/
theorem C9_error_headers_lowercase_witness :
    ({ status := 404, message := "Not Found",
       respheader := [("x-foo", "bar")], respbody := some [] } : HTTPError).respheader
      = lowerHeaders sampleRaw404.headers ∧
    ∀ nv ∈ ({ status := 404, message := "Not Found",
              respheader := [("x-foo", "bar")], respbody := some [] } : HTTPError).respheader,
      lowercaseStr nv.1 = true :=
  C9_error_headers_lowercase sampleClient sampleRequest [] sampleRaw404
    { sampleClient with
        status := some 404
        message := some "Not Found"
        respheader := some [("x-foo", "bar")] }
    { status := 404, message := "Not Found",
      respheader := [("x-foo", "bar")], respbody := some [] }
    [Event.putrequest "GET" "/blob",
     Event.endheaders ["x-ms-version: 2021-08-06", "User-Agent: pyazure"],
     Event.getresponse, Event.close]
    rfl

/-- C8: the returned `Response` body follows the length policy: absent
(`None`) when the reported content length is exactly 0, read to exhaustion
when the length is unknown, and read to exactly the reported length when it
is strictly positive. -/
theorem C8_body_read_policy (st : ClientState) (req : Request) (buf : List String)
    (resp : RawResponse) (st' : ClientState) (r : HTTPResponse) (tr : List Event)
    (h : perform_request st req buf (.ok resp) = (st', Outcome.success r, tr)) :
    (resp.length = some 0 → r.body = none) ∧
    (resp.length = none → r.body = some resp.stream) ∧
    (∀ n, resp.length = some n → 0 < n → r.body = some (resp.stream.take n)) := by
  have hb : r.body = readBody resp.length resp.stream := by
    unfold perform_request at h
    cases hg : get_connection st req <;> rw [hg] at h
    · simp at h
    case some connection =>
      simp only [] at h
      split at h
      · simp at h
      · rw [Prod.mk.injEq, Prod.mk.injEq] at h
        obtain ⟨-, h2, -⟩ := h
        injection h2 with h3
        subst h3
        rfl
  refine ⟨?_, ?_, ?_⟩
  · intro hl; rw [hb, hl]; rfl
  · intro hl; rw [hb, hl]; rfl
  · intro n hl hn; rw [hb, hl]; unfold readBody; simp only []; rw [if_pos hn]

/-- C8 witness: the sample 200 response reports length 2, and the returned
body is exactly the first two bytes of the stream. -/
theorem C8_body_read_policy_witness :
    (sampleRaw200.length = some 0 →
      ({ status := 200, message := "OK", headers := [("content-length", "2")],
         body := some [104, 105] } : HTTPResponse).body = none) ∧
    (sampleRaw200.length = none →
      ({ status := 200, message := "OK", headers := [("content-length", "2")],
         body := some [104, 105] } : HTTPResponse).body = some sampleRaw200.stream) ∧
    (∀ n, sampleRaw200.length = some n → 0 < n →
      ({ status := 200, message := "OK", headers := [("content-length", "2")],
         body := some [104, 105] } : HTTPResponse).body = some (sampleRaw200.stream.take n)) :=
  C8_body_read_policy sampleClient sampleRequest [] sampleRaw200
    { sampleClient with
        status := some 200
        message := some "OK"
        respheader := some [("content-length", "2")] }
    { status := 200, message := "OK", headers := [("content-length", "2")],
      body := some [104, 105] }
    [Event.putrequest "GET" "/blob",
     Event.endheaders ["x-ms-version: 2021-08-06", "User-Agent: pyazure"],
     Event.getresponse, Event.close]
    rfl

/-- C1 counterexample: dispatching the sample request against a raw 404
response whose wire header is `("X-Foo", "bar")` raises an `HTTPError`
carrying `("x-foo", "bar")` instead, so the error's headers do not match
the raw response exactly. -/
theorem C1_error_headers_not_exact :
    (perform_request sampleClient sampleRequest [] (NetResult.ok sampleRaw404)).2.1 =
      Outcome.httpError { status := 404, message := "Not Found",
                          respheader := [("x-foo", "bar")], respbody := some [] } ∧
    [(("x-foo" : String), ("bar" : String))] ≠ sampleRaw404.headers :=
  ⟨rfl, by decide⟩

/-- C1 (amended): for every dispatch whose raw response has status ≥ 300,
`perform_request` raises an `HTTPError` whose status code and reason phrase
match the raw response exactly, whose body is the bytes read under the
length policy, and whose headers are the raw headers with their names
lowercased; for every raw response with status < 300 it returns the
corresponding `Response` value instead of raising. -/
theorem C1_dispatch_error_contract (st : ClientState) (req : Request)
    (buf : List String) (resp : RawResponse) (connection : Connection)
    (hg : get_connection st req = some connection) :
    (300 ≤ resp.status →
      (perform_request st req buf (.ok resp)).2.1 =
        Outcome.httpError { status := resp.status, message := resp.reason,
                            respheader := lowerHeaders resp.headers,
                            respbody := readBody resp.length resp.stream }) ∧
    (resp.status < 300 →
      (perform_request st req buf (.ok resp)).2.1 =
        Outcome.success { status := resp.status, message := resp.reason,
                          headers := lowerHeaders resp.headers,
                          body := readBody resp.length resp.stream }) := by
  unfold perform_request
  rw [hg]
  simp only []
  constructor
  · intro h
    rw [if_pos h]
  · intro h
    rw [if_neg (by omega)]

/-- C1 witness: the amended contract instantiated at the sample 404
dispatch. -/
theorem C1_dispatch_error_contract_witness :
    (300 ≤ sampleRaw404.status →
      (perform_request sampleClient sampleRequest [] (.ok sampleRaw404)).2.1 =
        Outcome.httpError { status := sampleRaw404.status, message := sampleRaw404.reason,
                            respheader := lowerHeaders sampleRaw404.headers,
                            respbody := readBody sampleRaw404.length sampleRaw404.stream }) ∧
    (sampleRaw404.status < 300 →
      (perform_request sampleClient sampleRequest [] (.ok sampleRaw404)).2.1 =
        Outcome.success { status := sampleRaw404.status, message := sampleRaw404.reason,
                          headers := lowerHeaders sampleRaw404.headers,
                          body := readBody sampleRaw404.length sampleRaw404.stream }) :=
  C1_dispatch_error_contract sampleClient sampleRequest [] sampleRaw404
    sampleConnection rfl

/-- The body-sending step never closes the connection. -/
theorem countP_isClose_send_request_body (connection : Connection)
    (request_body : Option Bytes) :
    (send_request_body connection request_body).countP isClose = 0 := by
  unfold send_request_body
  split
  · simp [isClose]
  split
  · simp [isClose]
  · simp

/-- Events emitted inside the `try` block never include `close`. -/
theorem countP_isClose_dispatchEvents (st : ClientState) (connection : Connection)
    (req : Request) (buffer : List String) :
    (dispatchEvents st connection req buffer).countP isClose = 0 := by
  unfold dispatchEvents
  rw [List.countP_append, List.countP_append, List.countP_append, List.countP_append]
  rw [countP_isClose_send_request_body]
  have hcreds :
      (if !st.use_httplib && truthyStr st.proxy_host && truthyStr st.proxy_user then
          [Event.setProxyCredentials (st.proxy_user.getD "") st.proxy_password]
        else []).countP isClose = 0 := by
    split <;> rfl
  rw [hcreds]
  rfl

/-- C3: on every dispatch in which a connection object was acquired, the
connection's `close` is invoked exactly once, whether the dispatch returns
a `Response`, raises `HTTPError`, or propagates a connection-level
exception. -/
theorem C3_close_exactly_once (st : ClientState) (req : Request)
    (buf : List String) (net : NetResult) (connection : Connection)
    (hg : get_connection st req = some connection) :
    ((perform_request st req buf net).2.2).countP isClose = 1 := by
  unfold perform_request
  rw [hg]
  cases net with
  | err =>
    simp only []
    rw [List.countP_append, countP_isClose_dispatchEvents]
    rfl
  | ok resp =>
    simp only []
    split <;>
      · rw [List.countP_append, countP_isClose_dispatchEvents]
        rfl

/-- C3 witness: the sample successful dispatch closes exactly once. -/
theorem C3_close_exactly_once_witness :
    ((perform_request sampleClient sampleRequest [] (NetResult.ok sampleRaw200)).2.2).countP
      isClose = 1 :=
  C3_close_exactly_once sampleClient sampleRequest [] (NetResult.ok sampleRaw200)
    sampleConnection rfl

/-- C5: when no request body is supplied, `send_request_body` performs
exactly one explicit empty send for the alternate (winhttp) connection
implementation, and no send at all for the two standard implementations. -/
theorem C5_empty_body_send (connection : Connection) :
    (connection.kind = ConnKind.httpConn ∨ connection.kind = ConnKind.httpsConn →
      send_request_body connection none = []) ∧
    (connection.kind = ConnKind.winhttp →
      send_request_body connection none = [Event.send none]) := by
  unfold send_request_body
  cases hk : connection.kind <;> simp [truthyBytes, hk]

/-- C5 witness: the standard sample connection sends nothing for an absent
body; the winhttp sample connection performs one `send(None)`. -/
theorem C5_empty_body_send_witness :
    send_request_body sampleConnection none = [] ∧
    send_request_body winhttpConnection none = [Event.send none] :=
  ⟨(C5_empty_body_send sampleConnection).1 (Or.inr rfl),
   (C5_empty_body_send winhttpConnection).2 rfl⟩

/-- C7: `set_proxy` stores exactly the four given proxy parameters,
performs no validation, and leaves every other field of the client state
unchanged. -/
theorem C7_set_proxy_frame (st : ClientState) (host : Option String)
    (port : Option Nat) (user password : Option String) :
    (set_proxy st host port user password).proxy_host = host ∧
    (set_proxy st host port user password).proxy_port = port ∧
    (set_proxy st host port user password).proxy_user = user ∧
    (set_proxy st host port user password).proxy_password = password ∧
    (set_proxy st host port user password).service_instance = st.service_instance ∧
    (set_proxy st host port user password).status = st.status ∧
    (set_proxy st host port user password).respheader = st.respheader ∧
    (set_proxy st host port user password).message = st.message ∧
    (set_proxy st host port user password).cert_file = st.cert_file ∧
    (set_proxy st host port user password).account_name = st.account_name ∧
    (set_proxy st host port user password).account_key = st.account_key ∧
    (set_proxy st host port user password).service_namespace = st.service_namespace ∧
    (set_proxy st host port user password).issuer = st.issuer ∧
    (set_proxy st host port user password).protocol = st.protocol ∧
    (set_proxy st host port user password).use_httplib = st.use_httplib :=
  ⟨rfl, rfl, rfl, rfl, rfl, rfl, rfl, rfl, rfl, rfl, rfl, rfl, rfl, rfl, rfl⟩

/-- C6: on the standard-connection platform, `get_connection` addresses the
ultimate target at the fixed default port — 80 when the effective protocol
is `http` and 443 otherwise — directly when no proxy is configured, and as
the CONNECT-tunnel target when one is.  The request can shift between the
two defaults only through its protocol override; it carries no port field,
so no other port can ever be selected. -/
theorem C6_default_ports (st : ClientState) (req : Request) (connection : Connection)
    (hplat : st.use_httplib = true)
    (hg : get_connection st req = some connection) :
    effectiveTargetPort connection =
      if effectiveProtocol st req = "http" then HTTP_PORT else HTTPS_PORT := by
  by_cases hp : truthyStr st.proxy_host = true
  · cases hport : st.proxy_port with
    | none => simp [get_connection, hplat, hp, hport] at hg
    | some pport =>
      by_cases hproto : effectiveProtocol st req = "http" <;>
        · simp [get_connection, hplat, hp, hport, hproto] at hg
          subst hg
          simp [effectiveTargetPort, hproto]
  · by_cases hproto : effectiveProtocol st req = "http" <;>
      · simp [get_connection, hplat, hp, hproto] at hg
        subst hg
        simp [effectiveTargetPort, hproto]

/-- C6 witness: the sample client uses the default protocol `https`, and the
constructed connection addresses the target at port 443. -/
theorem C6_default_ports_witness :
    effectiveTargetPort sampleConnection =
      if effectiveProtocol sampleClient sampleRequest = "http" then HTTP_PORT
      else HTTPS_PORT :=
  C6_default_ports sampleClient sampleRequest sampleConnection rfl rfl

/-- C10: on the standard-connection path with a proxy host and port
configured, the CONNECT tunnel carries a `Proxy-Authorization` Basic header
precisely when both the proxy user and the proxy password are truthy; when
either is unset or empty, the tunnel is established with no header
dictionary at all. -/
theorem C10_proxy_auth_iff (st : ClientState) (req : Request) (pp : Nat)
    (hplat : st.use_httplib = true)
    (hp : truthyStr st.proxy_host = true)
    (hport : st.proxy_port = some pp) :
    ∃ connection t, get_connection st req = some connection ∧
      connection.tunnel = some t ∧
      ((truthyStr st.proxy_user && truthyStr st.proxy_password) = true →
        t.headers = some [("Proxy-Authorization",
          "Basic " ++ base64_encodestring
            (strBytes (st.proxy_user.getD "" ++ ":" ++ st.proxy_password.getD "")))]) ∧
      ((truthyStr st.proxy_user && truthyStr st.proxy_password) = false →
        t.headers = none) := by
  have hh1 : (truthyStr st.proxy_user && truthyStr st.proxy_password) = true →
      proxyAuthHeaders st = some [("Proxy-Authorization",
        "Basic " ++ base64_encodestring
          (strBytes (st.proxy_user.getD "" ++ ":" ++ st.proxy_password.getD "")))] := by
    intro h
    unfold proxyAuthHeaders
    rw [if_pos h]
  have hh2 : (truthyStr st.proxy_user && truthyStr st.proxy_password) = false →
      proxyAuthHeaders st = none := by
    intro h
    unfold proxyAuthHeaders
    rw [if_neg (by simp [h])]
  by_cases hproto : effectiveProtocol st req = "http"
  · refine ⟨{ kind := .httpConn, host := st.proxy_host.getD "", port := some pp,
              cert_file := none, protocol := none,
              tunnel := some { host := req.host, port := HTTP_PORT,
                               headers := proxyAuthHeaders st } },
            { host := req.host, port := HTTP_PORT, headers := proxyAuthHeaders st },
            ?_, rfl, hh1, hh2⟩
    simp [get_connection, hplat, hp, hport, hproto]
  · refine ⟨{ kind := .httpsConn, host := st.proxy_host.getD "", port := some pp,
              cert_file := st.cert_file, protocol := none,
              tunnel := some { host := req.host, port := HTTPS_PORT,
                               headers := proxyAuthHeaders st } },
            { host := req.host, port := HTTPS_PORT, headers := proxyAuthHeaders st },
            ?_, rfl, hh1, hh2⟩
    simp [get_connection, hplat, hp, hport, hproto]

/-- C10 witness: the proxy-configured sample client with credentials `u`
and `p` establishes its tunnel with the Basic authorization header. -/
theorem C10_proxy_auth_iff_witness :
    ∃ connection t, get_connection proxyClient sampleRequest = some connection ∧
      connection.tunnel = some t ∧
      ((truthyStr proxyClient.proxy_user && truthyStr proxyClient.proxy_password) = true →
        t.headers = some [("Proxy-Authorization",
          "Basic " ++ base64_encodestring
            (strBytes (proxyClient.proxy_user.getD "" ++ ":"
              ++ proxyClient.proxy_password.getD "")))]) ∧
      ((truthyStr proxyClient.proxy_user && truthyStr proxyClient.proxy_password) = false →
        t.headers = none) :=
  C10_proxy_auth_iff proxyClient sampleRequest 8080 rfl rfl rfl

/-- The removal loop leaves the list unchanged when no element from the
cursor onward matches. -/
theorem pyRemoveLoop_no_match (p : String → Bool) :
    ∀ (n : Nat) (lst : List String) (idx : Nat), lst.length - idx ≤ n →
      (∀ x ∈ lst.drop idx, p x = false) → pyRemoveLoop p lst idx = lst := by
  intro n
  induction n with
  | zero =>
    intro lst idx hn hall
    unfold pyRemoveLoop
    rw [dif_neg (by omega)]
  | succ n ih =>
    intro lst idx hn hall
    unfold pyRemoveLoop
    by_cases h : idx < lst.length
    · rw [dif_pos h]
      simp only []
      have hmem : lst.get ⟨idx, h⟩ ∈ lst.drop idx := by
        rw [List.get_eq_getElem, List.drop_eq_getElem_cons h]
        exact List.mem_cons_self _ _
      rw [if_neg (by rw [hall _ hmem]; exact Bool.false_ne_true)]
      exact ih lst (idx + 1) (by omega)
        (fun x hx => hall x (List.drop_subset_drop_left lst (by omega) hx))
    · rw [dif_neg h]

/-- `lst.remove(m)` on a list whose elements before `m` all differ from it. -/
theorem pyRemoveFirst_append (pre : List String) (m : String) (post : List String)
    (h : ∀ x ∈ pre, x ≠ m) : pyRemoveFirst (pre ++ m :: post) m = pre ++ post := by
  induction pre with
  | nil => simp [pyRemoveFirst]
  | cons a rest ih =>
    simp only [List.cons_append, pyRemoveFirst, List.append_eq]
    rw [if_neg (h a (List.mem_cons_self a rest))]
    rw [ih (fun x hx => h x (List.mem_cons_of_mem a hx))]

/-- Stepping the removal loop at the unique matching element removes it and
nothing else. -/
theorem pyRemoveLoop_at_match (p : String → Bool) (pre : List String) (m : String)
    (post : List String) (hpre : ∀ x ∈ pre, p x = false) (hm : p m = true)
    (hpost : ∀ x ∈ post, p x = false) :
    pyRemoveLoop p (pre ++ m :: post) pre.length = pre ++ post := by
  unfold pyRemoveLoop
  have hlt : pre.length < (pre ++ m :: post).length := by simp
  rw [dif_pos hlt]
  simp only []
  have hget : (pre ++ m :: post).get ⟨pre.length, hlt⟩ = m := by
    rw [List.get_eq_getElem]
    rw [List.getElem_append_right (Nat.le_refl pre.length)]
    simp
  rw [hget]
  rw [if_pos hm]
  rw [pyRemoveFirst_append pre m post
    (fun x hx hxm => by rw [hxm] at hx; rw [hpre m hx] at hm; exact Bool.false_ne_true hm)]
  exact pyRemoveLoop_no_match p (pre ++ post).length (pre ++ post) (pre.length + 1)
    (by omega)
    (fun x hx => by
      rcases List.mem_append.mp (List.drop_subset _ _ hx) with h1 | h1
      · exact hpre x h1
      · exact hpost x h1)

/-- Walking the removal loop across the non-matching prefix. -/
theorem pyRemoveLoop_walk (p : String → Bool) :
    ∀ (n : Nat) (pre : List String) (m : String) (post : List String) (idx : Nat),
      pre.length - idx ≤ n → idx ≤ pre.length →
      (∀ x ∈ pre, p x = false) → p m = true → (∀ x ∈ post, p x = false) →
      pyRemoveLoop p (pre ++ m :: post) idx = pre ++ post := by
  intro n
  induction n with
  | zero =>
    intro pre m post idx hn hle hpre hm hpost
    have heq : idx = pre.length := by omega
    subst heq
    exact pyRemoveLoop_at_match p pre m post hpre hm hpost
  | succ n ih =>
    intro pre m post idx hn hle hpre hm hpost
    by_cases heq : idx = pre.length
    · subst heq
      exact pyRemoveLoop_at_match p pre m post hpre hm hpost
    · have hlt : idx < pre.length := by omega
      unfold pyRemoveLoop
      have hlt2 : idx < (pre ++ m :: post).length := by simp; omega
      rw [dif_pos hlt2]
      simp only []
      have hget : (pre ++ m :: post).get ⟨idx, hlt2⟩ = pre.get ⟨idx, hlt⟩ := by
        rw [List.get_eq_getElem, List.get_eq_getElem]
        exact List.getElem_append_left hlt
      rw [hget]
      rw [if_neg (by rw [hpre _ (List.get_mem pre idx hlt)]; exact Bool.false_ne_true)]
      exact ih pre m post (idx + 1) (by omega) (by omega) hpre hm hpost

/-- A list with exactly one match decomposes around that match. -/
theorem countP_eq_one_decomp (p : String → Bool) :
    ∀ lst : List String, lst.countP p = 1 →
      ∃ pre m post, lst = pre ++ m :: post ∧ p m = true ∧
        (∀ x ∈ pre, p x = false) ∧ (∀ x ∈ post, p x = false) := by
  intro lst
  induction lst with
  | nil => intro h; simp [List.countP_nil] at h
  | cons a rest ih =>
    intro h
    rw [List.countP_cons] at h
    by_cases ha : p a = true
    · have hrest : rest.countP p = 0 := by rw [if_pos ha] at h; omega
      exact ⟨[], a, rest, by simp, ha, by simp,
        fun x hx => by simpa using (List.countP_eq_zero.mp hrest) x hx⟩
    · have ha' : p a = false := by simpa using ha
      rw [if_neg ha, Nat.add_zero] at h
      obtain ⟨pre, m, post, hsplit, hm, hpre, hpost⟩ := ih h
      refine ⟨a :: pre, m, post, by rw [hsplit]; rfl, hm, ?_, hpost⟩
      intro x hx
      rcases List.mem_cons.mp hx with rfl | hx2
      · exact ha'
      · exact hpre x hx2

/-- With at most one buffered match, the remove-while-iterating loop leaves
no matching line behind. -/
theorem pyRemoveLoop_filter_nil (p : String → Bool) (lst : List String)
    (h : lst.countP p ≤ 1) :
    (pyRemoveLoop p lst 0).filter p = [] := by
  rcases Nat.le_one_iff_eq_zero_or_eq_one.mp h with h0 | h1
  · rw [pyRemoveLoop_no_match p lst.length lst 0 (by omega)
      (fun x hx => by simpa using (List.countP_eq_zero.mp h0) x (List.drop_subset _ _ hx))]
    rw [List.filter_eq_nil_iff]
    intro x hx
    simpa using (List.countP_eq_zero.mp h0) x hx
  · obtain ⟨pre, m, post, hsplit, hm, hpre, hpost⟩ := countP_eq_one_decomp p lst h1
    subst hsplit
    rw [pyRemoveLoop_walk p pre.length pre m post 0 (by omega) (by omega) hpre hm hpost]
    rw [List.filter_eq_nil_iff]
    intro x hx
    rcases List.mem_append.mp hx with h1 | h1
    · simp [hpre x h1]
    · simp [hpost x h1]

/-- A line written by `putheader("Host", v)` starts with `"Host: "`. -/
theorem host_line_startsWith (v : String) :
    pyStartsWith (putheaderLine "Host" v) "Host: " = true := by
  unfold pyStartsWith putheaderLine
  rw [List.isPrefixOf_iff_prefix]
  have hdata : ("Host" ++ ": " ++ v).data = "Host: ".data ++ v.data := by
    rw [String.data_append, String.data_append]
    rw [show "Host".data ++ ": ".data = "Host: ".data from by decide]
  rw [hdata]
  exact List.prefix_append _ _

/-- The fixed `User-Agent` line does not start with `"Host: "`. -/
theorem ua_line_not_host (s : String) :
    pyStartsWith (putheaderLine "User-Agent" s) "Host: " = false := by
  unfold pyStartsWith putheaderLine
  rw [Bool.eq_false_iff]
  intro hcontra
  rw [List.isPrefixOf_iff_prefix] at hcontra
  obtain ⟨tail, htail⟩ := hcontra
  have hdata : ("User-Agent" ++ ": " ++ s).data = 'U' :: ("ser-Agent: ".data ++ s.data) := by
    rw [String.data_append, String.data_append]
    rw [show "User-Agent".data ++ ": ".data = 'U' :: "ser-Agent: ".data from by decide]
    rw [List.cons_append]
  rw [hdata] at htail
  rw [show ("Host: ".data : List Char) = 'H' :: "ost: ".data from by decide] at htail
  rw [List.cons_append] at htail
  injection htail with h1 h2
  exact absurd h1 (by decide)

/-- The request-header emission adds no `Host: ` line when no request
header produces one. -/
theorem filter_requestHeaderLines_nil (request_headers : List (String × String))
    (hreq : ∀ nv ∈ request_headers,
      pyStartsWith (putheaderLine nv.1 nv.2) "Host: " = false) :
    (requestHeaderLines request_headers).filter (fun i => pyStartsWith i "Host: ")
      = [] := by
  rw [List.filter_eq_nil_iff]
  intro a ha
  unfold requestHeaderLines at ha
  obtain ⟨nv, hnv, hmap⟩ := List.mem_filterMap.mp ha
  by_cases hv : nv.2 ≠ ""
  · rw [if_pos hv] at hmap
    have heq := Option.some.inj hmap
    subst heq
    simp [hreq nv hnv]
  · rw [if_neg hv] at hmap
    exact absurd hmap (by simp)

/-- C4: when tunnelling through a proxy on the standard path, the emitted
header block contains exactly one `Host: ` line, naming the tunnel target
`host:port`; the pre-existing buffered `Host: ` line (the connection
buffers at most one, written by `putrequest`) is removed first. -/
theorem C4_tunnel_host_header (st : ClientState) (connection : Connection)
    (t : Tunnel) (buffer : List String) (request_headers : List (String × String))
    (hplat : st.use_httplib = true)
    (hp : truthyStr st.proxy_host = true)
    (ht : connection.tunnel = some t)
    (hbuf : buffer.countP (fun i => pyStartsWith i "Host: ") ≤ 1)
    (hreq : ∀ nv ∈ request_headers,
      pyStartsWith (putheaderLine nv.1 nv.2) "Host: " = false) :
    (send_request_headers st connection buffer request_headers).filter
        (fun i => pyStartsWith i "Host: ")
      = [putheaderLine "Host" (t.host ++ ":" ++ toString t.port)] := by
  unfold send_request_headers
  rw [if_pos hplat, if_pos hp]
  unfold host_header_fixup
  rw [ht]
  simp only []
  rw [List.filter_append, List.filter_append, List.filter_append]
  rw [pyRemoveLoop_filter_nil _ _ hbuf]
  rw [filter_requestHeaderLines_nil request_headers hreq]
  simp [host_line_startsWith, ua_line_not_host]

/-- C4 witness: a proxied dispatch whose buffer already holds the proxy's
Host line ends up with exactly the tunnel target's Host line. -/
theorem C4_tunnel_host_header_witness :
    (send_request_headers proxyClient tunnelConnection
        ["GET /blob HTTP/1.1", "Host: 10.0.0.1:8080", "Accept-Encoding: identity"]
        [("x-ms-version", "2021-08-06")]).filter
        (fun i => pyStartsWith i "Host: ")
      = [putheaderLine "Host" ("example.com" ++ ":" ++ toString (443 : Nat))] :=
  C4_tunnel_host_header proxyClient tunnelConnection
    { host := "example.com", port := 443, headers := none }
    ["GET /blob HTTP/1.1", "Host: 10.0.0.1:8080", "Accept-Encoding: identity"]
    [("x-ms-version", "2021-08-06")]
    rfl rfl rfl (by decide) (by decide)
